import Mathlib

/-!
Shallow embedding of the bikebridge BLE Cycling Power emulator core
(src/bike_emulator.py): the shared control state (`BikeState`), the
measurement encoder (`struct.pack` of the 8-byte Cycling Power
Measurement payload), and one iteration of the notification scheduler
loop (`CyclingPowerMeasurementChrc.update_simulation`).

Modelling conventions:
- Python ints are `ℤ` (arbitrary precision, like Python).
- Python floats are modelled as `ℚ`.  For every concrete value used by
  the claims (calibration 1/18, 0.02; cadence/60.0 for cadence in
  [0,200]; products up to 20000) IEEE-double evaluation agrees exactly
  with rational evaluation after Python `int()` truncation, so the
  embedding is faithful on the ranges the program reaches.
- Python `int(x)` truncates toward zero: `pyInt`.
- Python `%` on ints with a positive modulus is Euclidean, matching
  Lean `Int.emod`.
- `struct.pack` raises `struct.error` on an out-of-range field; the
  encoder therefore returns `Option (List ℕ)` with `none` for the
  error.
- `time.time()` is passed to the tick as an explicit parameter
  `now : ℚ` (seconds of wall clock).
- A notification (`emit_properties_changed`) is modelled as an emitted
  event: the tick returns the list of payloads notified this tick.
-/

namespace BikeBridge

/-- Python `int(x)` on a real value: truncation toward zero. -/
def pyInt (q : ℚ) : ℤ := if 0 ≤ q then ⌊q⌋ else ⌈q⌉

/-- Python `max(lo, min(hi, v))` on ints. -/
def clampZ (lo hi v : ℤ) : ℤ := max lo (min hi v)

/-- Python `max(lo, min(hi, v))` on floats, modelled on rationals. -/
def clampQ (lo hi v : ℚ) : ℚ := max lo (min hi v)

/-- The shared control state `BikeState` of src/bike_emulator.py:
cadence (RPM), torque (percent), calibration factor, derived power. -/
structure BikeState where
  cadence : ℤ
  torque : ℤ
  calibration_factor : ℚ
  power : ℤ
deriving Repr, DecidableEq

/-- `BikeState.__init__`: cadence 60, torque 30, calibration 1/18, power 0. -/
def BikeState.init : BikeState :=
  { cadence := 60, torque := 30, calibration_factor := 1/18, power := 0 }

/-- The cadence setter: `self._cadence = max(0, min(200, int(value)))`,
with `ValueError`/`TypeError` (input `none`, i.e. unparsable) swallowed,
leaving the previous value. -/
def setCadence (s : BikeState) (v : Option ℚ) : BikeState :=
  match v with
  | none => s
  | some q => { s with cadence := clampZ 0 200 (pyInt q) }

/-- The torque setter: `self._torque = max(1, min(100, int(value)))`,
unparsable input is a no-op. -/
def setTorque (s : BikeState) (v : Option ℚ) : BikeState :=
  match v with
  | none => s
  | some q => { s with torque := clampZ 1 100 (pyInt q) }

/-- The calibration setter:
`self._calibration_factor = max(0.001, min(1.0, float(value)))`,
unparsable input is a no-op. -/
def setCalibration (s : BikeState) (v : Option ℚ) : BikeState :=
  match v with
  | none => s
  | some q => { s with calibration_factor := clampQ (1/1000) 1 q }

/-- The power setter: `self._power = int(value)` (value is already an int
whenever the program calls it). -/
def setPower (s : BikeState) (p : ℤ) : BikeState := { s with power := p }

/-- `BikeState.calculate_power`: reads cadence, torque and calibration
inside one critical section and returns `int(c * t * f)`. -/
def calculate_power (s : BikeState) : ℤ :=
  pyInt ((s.cadence : ℚ) * (s.torque : ℚ) * s.calibration_factor)

/-- `struct.pack('<H', v)`: two little-endian bytes, `struct.error`
(`none`) unless `0 ≤ v ≤ 65535`. -/
def packU16 (v : ℤ) : Option (List ℕ) :=
  if 0 ≤ v ∧ v ≤ 65535 then some [v.toNat % 256, v.toNat / 256] else none

/-- `struct.pack('<h', v)`: two little-endian bytes of the two's
complement representation, `struct.error` (`none`) unless
`-32768 ≤ v ≤ 32767`. -/
def packI16 (v : ℤ) : Option (List ℕ) :=
  if -32768 ≤ v ∧ v ≤ 32767 then
    some [(v % 65536).toNat % 256, (v % 65536).toNat / 256]
  else none

/-- The payload built each tick:
`struct.pack('<HhHH', 1 << 5, power, cum_crank_revs % 65536,
last_crank_event_time)`. -/
def encodeMeasurement (power cumRevs : ℤ) (eventTime : ℕ) : Option (List ℕ) :=
  match packU16 32, packI16 power, packU16 (cumRevs % 65536),
        packU16 (eventTime : ℤ) with
  | some a, some b, some c, some d => some (a ++ b ++ c ++ d)
  | _, _, _, _ => none

/-- The mutable fields of `CyclingPowerMeasurementChrc`. -/
structure ChrcState where
  notifying : Bool
  power : ℤ
  value : List ℕ
  cum_crank_revs : ℤ
  last_crank_event_time : ℕ
deriving Repr, DecidableEq

/-- `CyclingPowerMeasurementChrc.__init__`. -/
def ChrcState.init : ChrcState :=
  { notifying := false, power := 0, value := [], cum_crank_revs := 0,
    last_crank_event_time := 0 }

/-- `StartNotify`. -/
def startNotify (c : ChrcState) : ChrcState := { c with notifying := true }

/-- `StopNotify`. -/
def stopNotify (c : ChrcState) : ChrcState := { c with notifying := false }

/-- The per-tick crank counter increment:
`int(cadence / 60.0)` (for cadence in [0,200] the float division followed
by `int()` truncation equals exact rational truncation). -/
def crankIncrement (cadence : ℤ) : ℤ := pyInt ((cadence : ℚ) / 60)

/-- `int(time.time() * 1024) % 65536`, with `now` the wall-clock seconds. -/
def eventTimeOf (now : ℚ) : ℕ := ((pyInt (now * 1024)) % 65536).toNat

/-- The whole simulation state: shared control state plus characteristic. -/
structure SimState where
  bike : BikeState
  chrc : ChrcState
deriving Repr, DecidableEq

/-- One iteration of `CyclingPowerMeasurementChrc.update_simulation`:
derive power, write it back to the shared state, advance the crank
counter by `int(cadence/60.0)`, sample the event time from the wall
clock, pack the payload, store it, and, when `notifying`, emit one
notification carrying the new payload.  `none` models the
`struct.error` escaping the loop. -/
def tick (s : SimState) (now : ℚ) : Option (SimState × List (List ℕ)) :=
  let p := calculate_power s.bike
  let revs' := s.chrc.cum_crank_revs + crankIncrement s.bike.cadence
  let t' := eventTimeOf now
  (encodeMeasurement p revs' t').map fun bytes =>
    ({ bike := setPower s.bike p,
       chrc := { notifying := s.chrc.notifying, power := p,
                 value := bytes, cum_crank_revs := revs',
                 last_crank_event_time := t' } },
     if s.chrc.notifying then [bytes] else [])

/-- The `/api/cadence` POST handler: if the JSON body has a `value` key
(`body = some v`, where `v = none` means the value fails to parse as a
number) run the setter, then answer the current cadence with HTTP 200. -/
def cadenceEndpoint (s : BikeState) (body : Option (Option ℚ)) :
    BikeState × ℤ × ℕ :=
  match body with
  | none => (s, s.cadence, 200)
  | some v => let s' := setCadence s v; (s', s'.cadence, 200)

/-- The `/api/torque` POST handler. -/
def torqueEndpoint (s : BikeState) (body : Option (Option ℚ)) :
    BikeState × ℤ × ℕ :=
  match body with
  | none => (s, s.torque, 200)
  | some v => let s' := setTorque s v; (s', s'.torque, 200)

/-- The `/api/calibration` POST handler. -/
def calibrationEndpoint (s : BikeState) (body : Option (Option ℚ)) :
    BikeState × ℚ × ℕ :=
  match body with
  | none => (s, s.calibration_factor, 200)
  | some v => let s' := setCalibration s v; (s', s'.calibration_factor, 200)

/-- A run of the scheduler: before each tick the control plane may issue
one cadence request (`cmd`), then the tick executes at wall-clock `now`. -/
def run (s : SimState) : List (Option ℚ × ℚ) → Option SimState
  | [] => some s
  | (cmd, now) :: rest =>
      let s1 : SimState := { s with bike := setCadence s.bike cmd }
      match tick s1 now with
      | none => none
      | some (s2, _) => run s2 rest

/-! ### Helper lemmas -/

/-- On nonnegative inputs Python truncation is the floor. -/
lemma pyInt_nonneg {q : ℚ} (h : 0 ≤ q) : pyInt q = ⌊q⌋ := by
  simp [pyInt, h]

/-- The sampled event time always fits in a u16. -/
lemma eventTimeOf_lt (now : ℚ) : eventTimeOf now < 65536 := by
  unfold eventTimeOf
  omega

/-- Explicit bytes of a successful pack of the measurement payload. -/
lemma encodeMeasurement_eq (p r : ℤ) (t : ℕ)
    (hp1 : -32768 ≤ p) (hp2 : p ≤ 32767) (ht : t < 65536) :
    encodeMeasurement p r t =
      some [32, 0, (p % 65536).toNat % 256, (p % 65536).toNat / 256,
            (r % 65536).toNat % 256, (r % 65536).toNat / 256,
            t % 256, t / 256] := by
  have h32 : packU16 32 = some [32, 0] := by
    norm_num [packU16]
    decide
  have hp : packI16 p = some [(p % 65536).toNat % 256, (p % 65536).toNat / 256] := by
    simp [packI16, hp1, hp2]
  have hr : packU16 (r % 65536) =
      some [(r % 65536).toNat % 256, (r % 65536).toNat / 256] := by
    have h1 : (0 : ℤ) ≤ r % 65536 := by omega
    have h2 : r % 65536 ≤ 65535 := by omega
    simp [packU16, h1, h2]
  have htp : packU16 (t : ℤ) = some [t % 256, t / 256] := by
    have h1 : (0 : ℤ) ≤ (t : ℤ) := by omega
    have h2 : (t : ℤ) ≤ 65535 := by omega
    simp [packU16, h1, h2]
  rw [encodeMeasurement, h32, hp, hr, htp]
  simp

/-- Inversion of a successful tick: how every field of the post-state is
obtained from the pre-state, and what is notified. -/
lemma tick_some (s : SimState) (now : ℚ) (s' : SimState) (evs : List (List ℕ))
    (h : tick s now = some (s', evs)) :
    s'.bike = setPower s.bike (calculate_power s.bike) ∧
    s'.chrc.notifying = s.chrc.notifying ∧
    s'.chrc.power = calculate_power s.bike ∧
    s'.chrc.cum_crank_revs = s.chrc.cum_crank_revs + crankIncrement s.bike.cadence ∧
    s'.chrc.last_crank_event_time = eventTimeOf now ∧
    encodeMeasurement (calculate_power s.bike)
      (s.chrc.cum_crank_revs + crankIncrement s.bike.cadence)
      (eventTimeOf now) = some s'.chrc.value ∧
    evs = (if s.chrc.notifying then [s'.chrc.value] else []) := by
  unfold tick at h
  rw [Option.map_eq_some'] at h
  obtain ⟨bytes, henc, heq⟩ := h
  obtain ⟨hs, hevs⟩ := Prod.mk.injEq .. ▸ heq
  subst hs
  refine ⟨rfl, rfl, rfl, rfl, rfl, henc, ?_⟩
  exact hevs.symm

/-- Bounds of the clamped integer setters. -/
lemma clampZ_bounds (lo hi v : ℤ) (h : lo ≤ hi) :
    lo ≤ clampZ lo hi v ∧ clampZ lo hi v ≤ hi := by
  unfold clampZ
  omega

/-- The two-byte field of a fixed flags word. -/
lemma packU16_32 : packU16 32 = some [32, 0] := by
  norm_num [packU16]
  decide

/-- Out-of-range power makes the pack fail (`struct.error`), exactly as
`struct.pack('<h', ...)` does. -/
lemma encodeMeasurement_none (p r : ℤ) (t : ℕ)
    (h : ¬(-32768 ≤ p ∧ p ≤ 32767)) : encodeMeasurement p r t = none := by
  have hp : packI16 p = none := by simp [packI16, h]
  rw [encodeMeasurement, packU16_32, hp]

/-- The end-to-end scenario of the spec: cadence 90, torque 50,
calibration 0.02 set through the control plane over the startup state,
with prior counters revs 10 and event time 1000. -/
def scenarioState : SimState :=
  { bike := setCalibration (setTorque (setCadence BikeState.init (some 90))
      (some 50)) (some (1/50)),
    chrc := { notifying := false, power := 0, value := [],
              cum_crank_revs := 10, last_crank_event_time := 1000 } }

/-- A state whose stored crank counter sits at the u16 boundary. -/
def wrapState : SimState :=
  { bike := BikeState.init,
    chrc := { notifying := false, power := 0, value := [],
              cum_crank_revs := 65535, last_crank_event_time := 0 } }

/-! ### Claim theorems -/

/-- Claim C3: `calculate_power` reads one atomic snapshot of cadence,
torque and calibration and returns `floor(c * t * f)` (the Python
`int()` truncation agrees with the floor because the product is
nonnegative under the documented invariants); at the startup defaults
(cadence 60, torque 30, calibration 1/18) it returns exactly 100. -/
theorem C3_derive_power (s : BikeState)
    (hc : 0 ≤ s.cadence) (ht : 0 ≤ s.torque) (hf : 0 ≤ s.calibration_factor) :
    calculate_power s = ⌊(s.cadence : ℚ) * (s.torque : ℚ) * s.calibration_factor⌋ ∧
    calculate_power BikeState.init = 100 := by
  constructor
  · have h1 : (0 : ℚ) ≤ (s.cadence : ℚ) := by exact_mod_cast hc
    have h2 : (0 : ℚ) ≤ (s.torque : ℚ) := by exact_mod_cast ht
    have hprod : 0 ≤ (s.cadence : ℚ) * (s.torque : ℚ) * s.calibration_factor :=
      mul_nonneg (mul_nonneg h1 h2) hf
    unfold calculate_power
    exact pyInt_nonneg hprod
  · norm_num [calculate_power, BikeState.init, pyInt]

/-- Witness for C3 at the startup default state. -/
theorem C3_witness :
    0 ≤ BikeState.init.cadence ∧ 0 ≤ BikeState.init.torque ∧
    0 ≤ BikeState.init.calibration_factor ∧
    (calculate_power BikeState.init =
       ⌊(BikeState.init.cadence : ℚ) * (BikeState.init.torque : ℚ) *
         BikeState.init.calibration_factor⌋ ∧
     calculate_power BikeState.init = 100) :=
  ⟨by norm_num [BikeState.init], by norm_num [BikeState.init],
   by norm_num [BikeState.init],
   C3_derive_power BikeState.init (by norm_num [BikeState.init])
     (by norm_num [BikeState.init]) (by norm_num [BikeState.init])⟩

/-- Claim C1: every tick with derived power p in [0,32767] stores the
8-byte little-endian payload flags=0x0020, power=p, revs mod 65536,
event time; the end-to-end scenario (cadence 90, torque 50, calibration
0.02, prior revs 10) yields power 90, revs 11 and bytes
20 00 5A 00 0B 00 followed by the sampled event time. -/
theorem C1_wire_layout (s : SimState) (now : ℚ)
    (hp0 : 0 ≤ calculate_power s.bike) (hp : calculate_power s.bike ≤ 32767) :
    (∃ s' evs, tick s now = some (s', evs) ∧
       s'.chrc.value =
         [32, 0, (calculate_power s.bike).toNat % 256,
          (calculate_power s.bike).toNat / 256,
          ((s.chrc.cum_crank_revs + crankIncrement s.bike.cadence) % 65536).toNat % 256,
          ((s.chrc.cum_crank_revs + crankIncrement s.bike.cadence) % 65536).toNat / 256,
          eventTimeOf now % 256, eventTimeOf now / 256]) ∧
    calculate_power scenarioState.bike = 90 ∧
    (tick scenarioState now).map (fun q => q.1.chrc.value) =
      some [32, 0, 90, 0, 11, 0, eventTimeOf now % 256, eventTimeOf now / 256] := by
  have hmod : calculate_power s.bike % 65536 = calculate_power s.bike := by omega
  have henc := encodeMeasurement_eq (calculate_power s.bike)
    (s.chrc.cum_crank_revs + crankIncrement s.bike.cadence) (eventTimeOf now)
    (by omega) (by omega) (eventTimeOf_lt now)
  rw [hmod] at henc
  have h90 : calculate_power scenarioState.bike = 90 := by
    norm_num [scenarioState, calculate_power, pyInt, setCadence, setTorque,
      setCalibration, BikeState.init, clampZ, clampQ, min_def, max_def]
  refine ⟨?_, h90, ?_⟩
  · simp only [tick]
    rw [henc]
    exact ⟨_, _, rfl, rfl⟩
  · have hc : scenarioState.bike.cadence = 90 := by
      norm_num [scenarioState, setCadence, setTorque, setCalibration,
        BikeState.init, clampZ, pyInt, min_def, max_def]
    have hrev : scenarioState.chrc.cum_crank_revs = 10 := rfl
    have hinc : crankIncrement (90 : ℤ) = 1 := by
      norm_num [crankIncrement, pyInt]
    have henc2 := encodeMeasurement_eq 90 11 (eventTimeOf now)
      (by norm_num) (by norm_num) (eventTimeOf_lt now)
    norm_num at henc2
    simp only [tick, h90, hc, hrev, hinc]
    norm_num [henc2]
    decide

/-- Witness for C1 at the scenario state and wall clock 2 s. -/
theorem C1_witness :
    (0 ≤ calculate_power scenarioState.bike ∧
     calculate_power scenarioState.bike ≤ 32767) ∧
    ((∃ s' evs, tick scenarioState 2 = some (s', evs) ∧
        s'.chrc.value =
          [32, 0, (calculate_power scenarioState.bike).toNat % 256,
           (calculate_power scenarioState.bike).toNat / 256,
           ((scenarioState.chrc.cum_crank_revs +
               crankIncrement scenarioState.bike.cadence) % 65536).toNat % 256,
           ((scenarioState.chrc.cum_crank_revs +
               crankIncrement scenarioState.bike.cadence) % 65536).toNat / 256,
           eventTimeOf 2 % 256, eventTimeOf 2 / 256]) ∧
     calculate_power scenarioState.bike = 90 ∧
     (tick scenarioState 2).map (fun q => q.1.chrc.value) =
       some [32, 0, 90, 0, 11, 0, eventTimeOf 2 % 256, eventTimeOf 2 / 256]) := by
  have hp0 : 0 ≤ calculate_power scenarioState.bike := by
    norm_num [scenarioState, calculate_power, pyInt, setCadence, setTorque,
      setCalibration, BikeState.init, clampZ, clampQ, min_def, max_def]
  have hp : calculate_power scenarioState.bike ≤ 32767 := by
    norm_num [scenarioState, calculate_power, pyInt, setCadence, setTorque,
      setCalibration, BikeState.init, clampZ, clampQ, min_def, max_def]
  exact ⟨⟨hp0, hp⟩, C1_wire_layout scenarioState 2 hp0 hp⟩

/-- Counterexample to C2 as stated: from stored counter 65535 with
increment 1, the tick leaves the stored counter at 65536, not at
(65535+1) mod 65536 = 0 — the stored counter is never reduced. -/
theorem C2_counterexample :
    crankIncrement wrapState.bike.cadence = 1 ∧
    (tick wrapState 0).map (fun q => q.1.chrc.cum_crank_revs) = some 65536 ∧
    (65536 : ℤ) ≠ (65535 + 1) % 65536 := by
  refine ⟨?_, ?_, by decide⟩
  · norm_num [wrapState, BikeState.init, crankIncrement, pyInt]
  · norm_num [wrapState, BikeState.init, tick, calculate_power, pyInt, setPower,
      crankIncrement, eventTimeOf, encodeMeasurement, packU16, packI16]

/-- Claim C2 (amended): each tick advances the stored crank counter by
floor(cadence/60) without any reduction; the modulo 65536 is applied
only to the value written into the encoded payload, whose revs field
therefore wraps as (prior+Δ) mod 65536. -/
theorem C2_counter_advance (s : SimState) (now : ℚ)
    (hp0 : -32768 ≤ calculate_power s.bike)
    (hp : calculate_power s.bike ≤ 32767) :
    ∃ s' evs, tick s now = some (s', evs) ∧
      s'.chrc.cum_crank_revs =
        s.chrc.cum_crank_revs + crankIncrement s.bike.cadence ∧
      (s'.chrc.value.drop 4).take 2 =
        [((s.chrc.cum_crank_revs + crankIncrement s.bike.cadence) % 65536).toNat % 256,
         ((s.chrc.cum_crank_revs + crankIncrement s.bike.cadence) % 65536).toNat / 256] := by
  have henc := encodeMeasurement_eq (calculate_power s.bike)
    (s.chrc.cum_crank_revs + crankIncrement s.bike.cadence) (eventTimeOf now)
    hp0 hp (eventTimeOf_lt now)
  simp only [tick]
  rw [henc]
  exact ⟨_, _, rfl, rfl, rfl⟩

/-- Witness for C2 (amended) at the wraparound state. -/
theorem C2_witness :
    (-32768 ≤ calculate_power wrapState.bike ∧
     calculate_power wrapState.bike ≤ 32767) ∧
    ∃ s' evs, tick wrapState 0 = some (s', evs) ∧
      s'.chrc.cum_crank_revs =
        wrapState.chrc.cum_crank_revs + crankIncrement wrapState.bike.cadence ∧
      (s'.chrc.value.drop 4).take 2 =
        [((wrapState.chrc.cum_crank_revs +
            crankIncrement wrapState.bike.cadence) % 65536).toNat % 256,
         ((wrapState.chrc.cum_crank_revs +
            crankIncrement wrapState.bike.cadence) % 65536).toNat / 256] := by
  have hp0 : -32768 ≤ calculate_power wrapState.bike := by
    norm_num [wrapState, calculate_power, BikeState.init, pyInt]
  have hp : calculate_power wrapState.bike ≤ 32767 := by
    norm_num [wrapState, calculate_power, BikeState.init, pyInt]
  exact ⟨⟨hp0, hp⟩, C2_counter_advance wrapState 0 hp0 hp⟩

/-- Counterexample to C5 as stated: `setCadence(50.5)` stores 50, the
clamp of the truncation, not `clamp(50.5) = 50.5`. -/
theorem C5_counterexample :
    ((setCadence BikeState.init (some (101/2))).cadence : ℚ) ≠
      clampQ 0 200 (101/2) := by
  norm_num [setCadence, BikeState.init, pyInt, clampZ, clampQ, min_def, max_def]

/-- Claim C5 (amended): cadence and torque setters truncate a numeric
input toward zero (Python `int()`) before clamping, storing
`clamp(trunc(v))` into [0,200] resp. [1,100]; the calibration setter
stores `clamp(v)` into [0.001,1.0] exactly; all stored values lie
within the stated bounds. -/
theorem C5_setters_truncate (s : BikeState) (v : ℚ) :
    (setCadence s (some v)).cadence = clampZ 0 200 (pyInt v) ∧
    0 ≤ (setCadence s (some v)).cadence ∧ (setCadence s (some v)).cadence ≤ 200 ∧
    (setTorque s (some v)).torque = clampZ 1 100 (pyInt v) ∧
    1 ≤ (setTorque s (some v)).torque ∧ (setTorque s (some v)).torque ≤ 100 ∧
    (setCalibration s (some v)).calibration_factor = clampQ (1/1000) 1 v ∧
    1/1000 ≤ (setCalibration s (some v)).calibration_factor ∧
    (setCalibration s (some v)).calibration_factor ≤ 1 := by
  refine ⟨rfl, (clampZ_bounds 0 200 (pyInt v) (by norm_num)).1,
          (clampZ_bounds 0 200 (pyInt v) (by norm_num)).2,
          rfl, (clampZ_bounds 1 100 (pyInt v) (by norm_num)).1,
          (clampZ_bounds 1 100 (pyInt v) (by norm_num)).2,
          rfl, le_max_left _ _, max_le (by norm_num) (min_le_left 1 v)⟩

/-- Claim C8: an input that fails to parse as a number leaves every
setter a no-op (previous value retained, no error), and each control
endpoint still answers HTTP 200 carrying the unchanged current value. -/
theorem C8_unparsable_noop (s : BikeState) :
    setCadence s none = s ∧ setTorque s none = s ∧ setCalibration s none = s ∧
    cadenceEndpoint s (some none) = (s, s.cadence, 200) ∧
    torqueEndpoint s (some none) = (s, s.torque, 200) ∧
    calibrationEndpoint s (some none) = (s, s.calibration_factor, 200) :=
  ⟨rfl, rfl, rfl, rfl, rfl, rfl⟩

/-- Claim C6: on every successful tick the stored last crank event time
is the wall clock in 1/1024-second units reduced mod 65536, sampled as
an absolute value; the right-hand side depends only on the clock, never
on the previously stored event time. -/
theorem C6_event_time_sampled (s : SimState) (now : ℚ) (s' : SimState)
    (evs : List (List ℕ)) (h : tick s now = some (s', evs)) :
    s'.chrc.last_crank_event_time = (pyInt (now * 1024) % 65536).toNat := by
  have := (tick_some s now s' evs h).2.2.2.2.1
  rw [this]
  rfl

/-- The startup simulation state: default control values, fresh
characteristic. -/
def startState : SimState := { bike := BikeState.init, chrc := ChrcState.init }

/-- The state one tick after startup at wall clock 0: power 100,
one crank revolution counted, payload stored. -/
def startTicked : SimState :=
  { bike := { cadence := 60, torque := 30, calibration_factor := 1/18,
              power := 100 },
    chrc := { notifying := false, power := 100,
              value := [32, 0, 100, 0, 1, 0, 0, 0],
              cum_crank_revs := 1, last_crank_event_time := 0 } }

/-- Witness for C6 at the startup state and wall clock 0. -/
theorem C6_witness :
    tick startState 0 = some (startTicked, []) ∧
    startTicked.chrc.last_crank_event_time =
      (pyInt ((0 : ℚ) * 1024) % 65536).toNat := by
  have h : tick startState 0 = some (startTicked, []) := by
    norm_num [startState, startTicked, BikeState.init, ChrcState.init, tick,
      calculate_power, pyInt, setPower, crankIncrement, eventTimeOf,
      encodeMeasurement, packU16, packI16]
    decide
  exact ⟨h, C6_event_time_sampled startState 0 startTicked [] h⟩

/-- Claim C7: a tick whose update happens while the subscribed flag is
false emits no notification; while the flag is true it emits exactly one
notification carrying the newly stored bytes. -/
theorem C7_notify_gating (s : SimState) (now : ℚ) (s' : SimState)
    (evs : List (List ℕ)) (h : tick s now = some (s', evs)) :
    (s.chrc.notifying = false → evs = []) ∧
    (s.chrc.notifying = true → evs = [s'.chrc.value]) := by
  have hevs := (tick_some s now s' evs h).2.2.2.2.2.2
  constructor
  · intro hn
    rw [hevs, hn]
    simp
  · intro hn
    rw [hevs, hn]
    simp

/-- The startup state after `StartNotify` set the subscribed flag. -/
def subbedState : SimState :=
  { bike := BikeState.init, chrc := startNotify ChrcState.init }

/-- The state one tick after `subbedState` at wall clock 0. -/
def subbedTicked : SimState :=
  { bike := { cadence := 60, torque := 30, calibration_factor := 1/18,
              power := 100 },
    chrc := { notifying := true, power := 100,
              value := [32, 0, 100, 0, 1, 0, 0, 0],
              cum_crank_revs := 1, last_crank_event_time := 0 } }

/-- Witness for C7: with the flag set, one tick emits exactly the new
payload. -/
theorem C7_witness :
    tick subbedState 0 = some (subbedTicked, [[32, 0, 100, 0, 1, 0, 0, 0]]) ∧
    (subbedState.chrc.notifying = false →
      [[32, 0, 100, 0, 1, 0, 0, 0]] = ([] : List (List ℕ))) ∧
    (subbedState.chrc.notifying = true →
      [[32, 0, 100, 0, 1, 0, 0, 0]] = [subbedTicked.chrc.value]) := by
  have h : tick subbedState 0 = some (subbedTicked, [[32, 0, 100, 0, 1, 0, 0, 0]]) := by
    norm_num [subbedState, subbedTicked, BikeState.init, ChrcState.init,
      startNotify, tick, calculate_power, pyInt, setPower, crankIncrement,
      eventTimeOf, encodeMeasurement, packU16, packI16]
    decide
  refine ⟨h, ?_, ?_⟩
  · exact (C7_notify_gating subbedState 0 subbedTicked _ h).1
  · exact (C7_notify_gating subbedState 0 subbedTicked _ h).2

/-- Counterexample to C4 as stated: at power 40000 the encoder raises
`struct.error` (modelled `none`) instead of clamping to 32767. -/
theorem C4_counterexample : encodeMeasurement 40000 0 0 = none :=
  encodeMeasurement_none 40000 0 0 (by decide)

/-- Claim C4 (amended): for power outside the signed 16-bit range the
encoder rejects the input with `struct.error` rather than clamping;
for power within the range it always produces a well-formed 8-byte
payload. -/
theorem C4_encode_rejects (p r : ℤ) (t : ℕ) (ht : t < 65536) :
    (¬(-32768 ≤ p ∧ p ≤ 32767) → encodeMeasurement p r t = none) ∧
    (-32768 ≤ p → p ≤ 32767 →
      ∃ bs, encodeMeasurement p r t = some bs ∧ bs.length = 8) := by
  constructor
  · exact fun h => encodeMeasurement_none p r t h
  · intro h1 h2
    exact ⟨_, encodeMeasurement_eq p r t h1 h2 ht, by simp⟩

/-- Witness for C4 (amended) at power 40000. -/
theorem C4_witness :
    (0 : ℕ) < 65536 ∧
    ((¬(-32768 ≤ (40000 : ℤ) ∧ (40000 : ℤ) ≤ 32767) →
        encodeMeasurement 40000 0 0 = none) ∧
     (-32768 ≤ (40000 : ℤ) → (40000 : ℤ) ≤ 32767 →
        ∃ bs, encodeMeasurement 40000 0 0 = some bs ∧ bs.length = 8)) :=
  ⟨by decide, C4_encode_rejects 40000 0 0 (by decide)⟩

/-- A cadence below 60 RPM contributes no whole revolution per tick. -/
lemma crankIncrement_eq_zero {c : ℤ} (h0 : 0 ≤ c) (h60 : c < 60) :
    crankIncrement c = 0 := by
  have hge : (0 : ℚ) ≤ (c : ℚ) / 60 := by
    apply div_nonneg _ (by norm_num)
    exact_mod_cast h0
  have hlt : (c : ℚ) / 60 < 1 := by
    rw [div_lt_one (by norm_num)]
    exact_mod_cast h60
  unfold crankIncrement
  rw [pyInt_nonneg hge]
  exact Int.floor_eq_zero_iff.mpr ⟨hge, hlt⟩

/-- Over a whole run in which every cadence request keeps the stored
cadence below 60 RPM, the crank counter never moves. -/
lemma run_preserves_revs (steps : List (Option ℚ × ℚ)) :
    ∀ s s' : SimState, 0 ≤ s.bike.cadence → s.bike.cadence < 60 →
    (∀ p ∈ steps, ∀ q : ℚ, p.1 = some q → clampZ 0 200 (pyInt q) < 60) →
    run s steps = some s' →
    s'.chrc.cum_crank_revs = s.chrc.cum_crank_revs := by
  induction steps with
  | nil =>
      intro s s' _ _ _ hrun
      simp only [run, Option.some.injEq] at hrun
      rw [← hrun]
  | cons step rest ih =>
      intro s s' h0 h60 hcmds hrun
      obtain ⟨cmd, now⟩ := step
      simp only [run] at hrun
      cases htick : tick { s with bike := setCadence s.bike cmd } now with
      | none => rw [htick] at hrun; cases hrun
      | some pr =>
          obtain ⟨s2, evs⟩ := pr
          rw [htick] at hrun
          have hfacts := tick_some _ now s2 evs htick
          have hcad : 0 ≤ (setCadence s.bike cmd).cadence ∧
              (setCadence s.bike cmd).cadence < 60 := by
            cases cmd with
            | none => exact ⟨h0, h60⟩
            | some q =>
                refine ⟨(clampZ_bounds 0 200 (pyInt q) (by norm_num)).1, ?_⟩
                exact hcmds (some q, now) (List.mem_cons_self _ _) q rfl
          have hrevs2 : s2.chrc.cum_crank_revs = s.chrc.cum_crank_revs := by
            have := hfacts.2.2.2.1
            rw [this, crankIncrement_eq_zero hcad.1 hcad.2, add_zero]
          have hcad2 : s2.bike.cadence = (setCadence s.bike cmd).cadence := by
            rw [hfacts.1]
            rfl
          have := ih s2 s' (by rw [hcad2]; exact hcad.1) (by rw [hcad2]; exact hcad.2)
            (fun p hp q hq => hcmds p (List.mem_cons_of_mem _ hp) q hq) hrun
          rw [this, hrevs2]

/-- Claim C9: in every state reachable through the clamped setters the
derived power lies in [0, 20000], inside the signed 16-bit range, so
packing it as i16 cannot fail: the out-of-range branch of the encoder
is unreachable under the documented invariants. -/
theorem C9_power_in_range (s : BikeState) (r : ℤ) (t : ℕ)
    (hc1 : 0 ≤ s.cadence) (hc2 : s.cadence ≤ 200)
    (ht1 : 1 ≤ s.torque) (ht2 : s.torque ≤ 100)
    (hf1 : 1/1000 ≤ s.calibration_factor) (hf2 : s.calibration_factor ≤ 1)
    (htt : t < 65536) :
    0 ≤ calculate_power s ∧ calculate_power s ≤ 20000 ∧
    (encodeMeasurement (calculate_power s) r t).isSome = true := by
  have h1 : (0 : ℚ) ≤ (s.cadence : ℚ) := by exact_mod_cast hc1
  have h2 : (0 : ℚ) ≤ (s.torque : ℚ) := by
    have : (0 : ℤ) ≤ s.torque := by omega
    exact_mod_cast this
  have hf0 : (0 : ℚ) ≤ s.calibration_factor := le_trans (by norm_num) hf1
  have hprod0 : 0 ≤ (s.cadence : ℚ) * (s.torque : ℚ) * s.calibration_factor :=
    mul_nonneg (mul_nonneg h1 h2) hf0
  have hcq : (s.cadence : ℚ) ≤ 200 := by exact_mod_cast hc2
  have htq : (s.torque : ℚ) ≤ 100 := by exact_mod_cast ht2
  have hprodle : (s.cadence : ℚ) * (s.torque : ℚ) * s.calibration_factor ≤ 20000 := by
    calc (s.cadence : ℚ) * (s.torque : ℚ) * s.calibration_factor
        ≤ (s.cadence : ℚ) * (s.torque : ℚ) * 1 :=
          mul_le_mul_of_nonneg_left hf2 (mul_nonneg h1 h2)
      _ = (s.cadence : ℚ) * (s.torque : ℚ) := mul_one _
      _ ≤ 200 * 100 := mul_le_mul hcq htq h2 (by norm_num)
      _ = 20000 := by norm_num
  have hpow : calculate_power s =
      ⌊(s.cadence : ℚ) * (s.torque : ℚ) * s.calibration_factor⌋ := by
    unfold calculate_power
    exact pyInt_nonneg hprod0
  have hge : 0 ≤ calculate_power s := by
    rw [hpow]
    exact Int.floor_nonneg.mpr hprod0
  have hle : calculate_power s ≤ 20000 := by
    rw [hpow]
    calc ⌊(s.cadence : ℚ) * (s.torque : ℚ) * s.calibration_factor⌋
        ≤ ⌊(20000 : ℚ)⌋ := Int.floor_mono hprodle
      _ = 20000 := by norm_num
  refine ⟨hge, hle, ?_⟩
  rw [encodeMeasurement_eq (calculate_power s) r t (by omega) (by omega) htt]
  rfl

/-- Witness for C9 at the startup defaults. -/
theorem C9_witness :
    (0 ≤ BikeState.init.cadence ∧ BikeState.init.cadence ≤ 200 ∧
     1 ≤ BikeState.init.torque ∧ BikeState.init.torque ≤ 100 ∧
     1/1000 ≤ BikeState.init.calibration_factor ∧
     BikeState.init.calibration_factor ≤ 1 ∧ (0 : ℕ) < 65536) ∧
    (0 ≤ calculate_power BikeState.init ∧
     calculate_power BikeState.init ≤ 20000 ∧
     (encodeMeasurement (calculate_power BikeState.init) 0 0).isSome = true) :=
  ⟨⟨by norm_num [BikeState.init], by norm_num [BikeState.init],
    by norm_num [BikeState.init], by norm_num [BikeState.init],
    by norm_num [BikeState.init], by norm_num [BikeState.init], by norm_num⟩,
   C9_power_in_range BikeState.init 0 0
     (by norm_num [BikeState.init]) (by norm_num [BikeState.init])
     (by norm_num [BikeState.init]) (by norm_num [BikeState.init])
     (by norm_num [BikeState.init]) (by norm_num [BikeState.init])
     (by norm_num)⟩

/-- Claim C10: a cadence in [0,59] yields a per-tick increment of
floor(cadence/60) = 0 — fractional revolutions are discarded, never
accumulated — so over any run in which the stored cadence stays below
60 RPM the crank counter never advances. -/
theorem C10_low_cadence_no_advance :
    (∀ c : ℤ, 0 ≤ c → c < 60 → crankIncrement c = 0) ∧
    (∀ steps : List (Option ℚ × ℚ), ∀ s s' : SimState,
      0 ≤ s.bike.cadence → s.bike.cadence < 60 →
      (∀ p ∈ steps, ∀ q : ℚ, p.1 = some q → clampZ 0 200 (pyInt q) < 60) →
      run s steps = some s' →
      s'.chrc.cum_crank_revs = s.chrc.cum_crank_revs) :=
  ⟨fun _ h0 h60 => crankIncrement_eq_zero h0 h60, run_preserves_revs⟩

/-- A state pedalling at 59 RPM with a fresh characteristic. -/
def lowCadenceState : SimState :=
  { bike := { cadence := 59, torque := 30, calibration_factor := 1/18,
              power := 0 },
    chrc := ChrcState.init }

/-- `lowCadenceState` after one tick at wall clock 1: power 98, crank
counter still 0. -/
def lowCadenceTicked : SimState :=
  { bike := { cadence := 59, torque := 30, calibration_factor := 1/18,
              power := 98 },
    chrc := { notifying := false, power := 98,
              value := [32, 0, 98, 0, 0, 0, 0, 4],
              cum_crank_revs := 0, last_crank_event_time := 1024 } }

/-- Witness for C10: one tick at 59 RPM leaves the crank counter at 0. -/
theorem C10_witness :
    crankIncrement 59 = 0 ∧
    run lowCadenceState [((none : Option ℚ), (1 : ℚ))] = some lowCadenceTicked ∧
    lowCadenceTicked.chrc.cum_crank_revs =
      lowCadenceState.chrc.cum_crank_revs := by
  have hrun : run lowCadenceState [((none : Option ℚ), (1 : ℚ))] =
      some lowCadenceTicked := by
    norm_num [run, lowCadenceState, lowCadenceTicked, ChrcState.init,
      setCadence, tick, calculate_power, pyInt, setPower, crankIncrement,
      eventTimeOf, encodeMeasurement, packU16, packI16]
    decide
  refine ⟨C10_low_cadence_no_advance.1 59 (by norm_num) (by norm_num),
          hrun, ?_⟩
  exact C10_low_cadence_no_advance.2 [((none : Option ℚ), (1 : ℚ))]
    lowCadenceState lowCadenceTicked
    (by norm_num [lowCadenceState]) (by norm_num [lowCadenceState])
    (by intro p hp q hq
        simp only [List.mem_singleton] at hp
        rw [hp] at hq
        cases hq)
    hrun

end BikeBridge
